import Mathlib

/-!
# Verification of the rocketlaunch_feishu extraction / sync pipeline

Shallow embedding of the core logic of the repository:

* `src/rocketlaunch_feishu/html_parser.py` — datetime normalization
  (`parse_and_convert_datetime`, `parse_datetime_rocketlaunchlive_dict`,
  `_parse_datetime_nextspaceflight`) and status-from-style resolution
  (`_parse_launch_status_from_style`);
* `src/rocketlaunch_feishu/cli.py` — the Sync Planner (`prepare_feishu_sync`),
  the Sync Executor (`execute_feishu_sync`) and the rocketlaunch.live branch of
  `fetch_data`.

Python strings are modeled as Lean `String` / `List Char` (ASCII-faithful: the
repository's regexes, tables and color codes are all ASCII; Unicode-only
case-mapping corner cases are outside the modeled input space).  Python `None`
is modeled with `Option`.  A Python function that may raise an exception to its
caller is embedded as an `Except PyErr` computation; `try/except` blocks are
embedded with `pyTry`.  The IANA zone database is modeled by the fixed-offset
table `zoneInfo` covering the two zones the repository uses ("UTC" and
"Asia/Shanghai", the latter at UTC+8 / abbreviation CST, its offset since 1991;
all concrete dates evaluated below are modern).
-/

/-! ## Python string primitives -/

/-- Python `\s` / `str.strip()` whitespace, ASCII part: space, tab, LF, VT, FF, CR. -/
def isPySpace (c : Char) : Bool :=
  c = ' ' || c = '\t' || c = '\n' || c = '\x0b' || c = '\x0c' || c = '\r'

/-- ASCII `[A-Z]`, the character class of the repository's date regexes. -/
def isUpperAZ (c : Char) : Bool := 'A' ≤ c && c ≤ 'Z'

/-- ASCII `[0-9]`, the `\d` of the repository's regexes on its ASCII inputs. -/
def isDigit09 (c : Char) : Bool := '0' ≤ c && c ≤ '9'

/-- `str.strip()` on a character list: drop leading and trailing whitespace. -/
def pyStripList (cs : List Char) : List Char :=
  ((cs.dropWhile isPySpace).reverse.dropWhile isPySpace).reverse

/-- `str.strip()` on a `String`. -/
def pyStrip (s : String) : String := (pyStripList s.toList).asString

/-- `str.strip(',')`: drop leading and trailing commas (used by `fetch_data`). -/
def pyStripComma (s : String) : String :=
  (((s.toList.dropWhile (· = ',')).reverse.dropWhile (· = ',')).reverse).asString

/-- `str.lower()` (ASCII case mapping, which covers every table entry compared). -/
def pyLower (s : String) : String := (s.toList.map Char.toLower).asString

/-- `str.upper()` (ASCII case mapping). -/
def pyUpper (s : String) : String := (s.toList.map Char.toUpper).asString

/-- Numeric value of an ASCII digit string (most significant first). -/
def digitsToInt (cs : List Char) : Int :=
  cs.foldl (fun acc c => acc * 10 + (Int.ofNat (c.toNat - '0'.toNat))) 0

/-! ## Python exceptions -/

/-- Exceptions that the embedded code can raise. `valueError` stands for the
`ValueError` of `strptime` / `int(...)`, `zoneError` for a failed `ZoneInfo`
lookup, `attributeError` for an attribute access on a value that lacks it. -/
inductive PyErr where
  | valueError
  | zoneError
  | attributeError
  deriving DecidableEq, Repr

/-- A Python `try: body except...: handler` block: every raised exception is
routed to the handler. -/
def pyTry {α : Type} (body : Except PyErr α) (handler : PyErr → Except PyErr α) :
    Except PyErr α :=
  match body with
  | .ok a => .ok a
  | .error e => handler e

/-- `int(s)` on the digit-only captures produced by the repository's regexes:
raises `ValueError` unless the string is a nonempty run of ASCII digits
(the only shape ever passed to it here). -/
def pyInt (cs : List Char) : Except PyErr Int :=
  if cs ≠ [] ∧ cs.all isDigit09 then .ok (digitsToInt cs) else .error .valueError

/-! ## Proleptic Gregorian calendar (the calendar of `datetime`) -/

/-- Gregorian leap year. -/
def isLeapYear (y : Int) : Bool := y % 4 = 0 && (y % 100 ≠ 0 || y % 400 = 0)

/-- Number of days of month `m` (1–12) of year `y`. -/
def daysInMonth (y m : Int) : Int :=
  if m = 2 then (if isLeapYear y then 29 else 28)
  else if m = 4 || m = 6 || m = 9 || m = 11 then 30
  else 31

/-- Days from 1970-01-01 to the civil date `y-m-d` (proleptic Gregorian),
via the Julian-day-number formula with floor division. -/
def daysFromCivil (y m d : Int) : Int :=
  let a : Int := (14 - m).fdiv 12
  let y2 : Int := y + 4800 - a
  let m2 : Int := m + 12 * a - 3
  d + (153 * m2 + 2).fdiv 5 + 365 * y2 + y2.fdiv 4 - y2.fdiv 100 + y2.fdiv 400
    - 32045 - 2440588

/-- Civil date `(y, m, d)` of the day `z` days after 1970-01-01
(inverse of `daysFromCivil`). -/
def civilFromDays (z : Int) : Int × Int × Int :=
  let z' : Int := z + 719468
  let era : Int := z'.fdiv 146097
  let doe : Int := z' - era * 146097
  let yoe : Int := (doe - doe.fdiv 1460 + doe.fdiv 36524 - doe.fdiv 146096).fdiv 365
  let y : Int := yoe + era * 400
  let doy : Int := doe - (365 * yoe + yoe.fdiv 4 - yoe.fdiv 100)
  let mp : Int := (5 * doy + 2).fdiv 153
  let d : Int := doy - (153 * mp + 2).fdiv 5 + 1
  let m : Int := mp + (if mp < 10 then 3 else -9)
  (if m ≤ 2 then y + 1 else y, m, d)

/-- A naive `datetime` (to minute precision — every format the repository
parses stops at minutes, so seconds are always 0). -/
structure NaiveDT where
  year : Int
  month : Int
  day : Int
  hour : Int
  minute : Int
  deriving DecidableEq, Repr

/-- Seconds since epoch of a civil datetime read in a UTC-offset zone:
`datetime.timestamp()` of the zone-aware datetime. -/
def epochSecondsOf (dt : NaiveDT) (offsetSeconds : Int) : Int :=
  daysFromCivil dt.year dt.month dt.day * 86400
    + dt.hour * 3600 + dt.minute * 60 - offsetSeconds

/-- Civil datetime shown by a UTC-offset zone at the instant `secs`
(seconds since epoch). -/
def civilOfEpochSeconds (secs offsetSeconds : Int) : NaiveDT :=
  let t : Int := secs + offsetSeconds
  let days : Int := t.fdiv 86400
  let rem : Int := t - days * 86400
  let ymd := civilFromDays days
  ⟨ymd.1, ymd.2.1, ymd.2.2, rem.fdiv 3600, (rem - rem.fdiv 3600 * 3600).fdiv 60⟩

/-! ## `strptime` (restricted to the format strings the repository uses)

CPython's `_strptime` turns each directive into a regex and then range-checks
the values through the `datetime` constructor.  The directives used here:
`%Y` = up to 4 digits, `%m` = `1[0-2]|0[1-9]|[1-9]`, `%d` = `3[01]|[12]\d|0[1-9]|[1-9]`
(then checked against the month length), `%H` = `2[0-3]|[0-1]\d|\d`,
`%I` = `1[0-2]|0[1-9]|[1-9]`, `%M` = `[0-5]\d|\d`, `%p` = `AM|PM` (case-insensitive),
`%a` / `%b` = the C-locale weekday / month abbreviations (case-insensitive).
A failed match or an out-of-range date raises `ValueError`. -/

/-- Value of a token matched by `%I` (hour 1–12), or `none` if the token
does not match `1[0-2]|0[1-9]|[1-9]`. -/
def matchHour12 (cs : List Char) : Option Int :=
  if cs.all isDigit09 ∧ (cs.length = 1 ∨ cs.length = 2) then
    let v := digitsToInt cs
    if 1 ≤ v ∧ v ≤ 12 then some v else none
  else none

/-- Value of a token matched by `%H` (hour 0–23). -/
def matchHour24 (cs : List Char) : Option Int :=
  if cs.all isDigit09 ∧ (cs.length = 1 ∨ cs.length = 2) then
    let v := digitsToInt cs
    if 0 ≤ v ∧ v ≤ 23 then some v else none
  else none

/-- Value of a token matched by `%M` (minute 0–59). -/
def matchMinute (cs : List Char) : Option Int :=
  if cs.all isDigit09 ∧ (cs.length = 1 ∨ cs.length = 2) then
    let v := digitsToInt cs
    if 0 ≤ v ∧ v ≤ 59 then some v else none
  else none

/-- `strptime(f"{year}-{month:02d}-{day:02d} {time_str} {am_pm}".strip(), fmt)`
where `fmt` is `"%Y-%m-%d %I:%M %p"` when `am_pm` is nonempty and
`"%Y-%m-%d %H:%M"` otherwise — the exact construction of
`parse_and_convert_datetime` (html_parser.py lines 26–30).  The year, month
and day components are already integers, so their formatted-then-rematched
round trip succeeds exactly when they are in the directive ranges and the date
exists; `time_str` and `am_pm` are rematched character by character.  (Every
caller passes whitespace-free tokens, so format whitespace is modeled as
matching exactly the one space the f-string inserts.) -/
def strptimeYmdTime (year month day : Int) (timeStr amPm : String) :
    Except PyErr NaiveDT :=
  if ¬(1 ≤ year ∧ year ≤ 9999) then .error .valueError
  else if ¬(1 ≤ month ∧ month ≤ 12) then .error .valueError
  else if ¬(1 ≤ day ∧ day ≤ daysInMonth year month) then .error .valueError
  else
    match timeStr.toList.splitOn ':' with
    | [hs, ms] =>
      match matchMinute ms with
      | none => .error .valueError
      | some minute =>
        if amPm = "" then
          match matchHour24 hs with
          | none => .error .valueError
          | some h => .ok ⟨year, month, day, h, minute⟩
        else
          match matchHour12 hs with
          | none => .error .valueError
          | some h =>
            if pyUpper amPm = "AM" then
              .ok ⟨year, month, day, h % 12, minute⟩
            else if pyUpper amPm = "PM" then
              .ok ⟨year, month, day, h % 12 + 12, minute⟩
            else .error .valueError
    | _ => .error .valueError

/-- The fixed offsets the repository's two `ZoneInfo` names denote
(Asia/Shanghai has been UTC+8 without DST since 1991; every date the
repository's claims evaluate is modern).  Any other key raises. -/
def zoneInfo (name : String) : Except PyErr (Int × String) :=
  if name = "UTC" then .ok (0, "UTC")
  else if name = "Asia/Shanghai" then .ok (8 * 3600, "CST")
  else .error .zoneError

/-- Zero-padded decimal rendering of a nonnegative `Int` to width `w`. -/
def padInt (n : Int) (w : Nat) : String :=
  let s := toString n.toNat
  (String.mk (List.replicate (w - s.length) '0')) ++ s

/-- `dt.strftime("%Y-%m-%d %H:%M:%S %Z%z")` for a zone-aware datetime with
zone abbreviation `abbr` and a positive whole-hour offset. -/
def strftimeIso (dt : NaiveDT) (abbr : String) (offsetSeconds : Int) : String :=
  padInt dt.year 4 ++ "-" ++ padInt dt.month 2 ++ "-" ++ padInt dt.day 2 ++ " " ++
  padInt dt.hour 2 ++ ":" ++ padInt dt.minute 2 ++ ":00 " ++ abbr ++
  "+" ++ padInt (offsetSeconds.fdiv 3600) 2 ++ padInt ((offsetSeconds % 3600).fdiv 60) 2

/-! ## `parse_and_convert_datetime` (html_parser.py lines 11–57) -/

/-- The `try:` block body of `parse_and_convert_datetime`: build the input
string, `strptime` it, attach the input zone, convert to the target zone, and
produce the millisecond timestamp plus the ISO-like string.  Each step that can
raise is an `Except` step. -/
def parseAndConvertBody (year month day : Int) (timeStr amPm : String)
    (inputTimezoneStr targetTimezoneStr : String) :
    Except PyErr (Option Int × Option String) := do
  let dtNaive ← strptimeYmdTime year month day timeStr amPm
  let inputTz ← zoneInfo inputTimezoneStr
  let targetTz ← zoneInfo targetTimezoneStr
  let instant := epochSecondsOf dtNaive inputTz.1
  let timestampMs := instant * 1000
  let dtTarget := civilOfEpochSeconds instant targetTz.1
  let datetimeIsoStr := strftimeIso dtTarget targetTz.2 targetTz.1
  return (some timestampMs, some datetimeIsoStr)

/-- `parse_and_convert_datetime(year, month, day, time_str, am_pm,
input_timezone_str, target_timezone_str)`: the whole body is wrapped in
`try: ... except ValueError: return None, None except Exception: return None, None`,
so every exception of the body becomes the `(None, None)` result. -/
def parse_and_convert_datetime (year month day : Int) (timeStr amPm : String)
    (inputTimezoneStr : String := "UTC")
    (targetTimezoneStr : String := "Asia/Shanghai") :
    Except PyErr (Option Int × Option String) :=
  pyTry (parseAndConvertBody year month day timeStr amPm
           inputTimezoneStr targetTimezoneStr)
    (fun _ => .ok (none, none))

/-! ## The rocketlaunch.live date regex and month table -/

/-- `re.match(r'([A-Z]{3,}) ?(\d{1,2})(?: (\d{4}))?', date_str)`
(html_parser.py line 68 / cli.py line 79), embedded by maximal munch — the
three character classes (`[A-Z]`, space, `\d`) are pairwise disjoint, so
greedy matching without backtracking is exact.  Returns the three capture
groups.  Note the month group is case-SENSITIVE: `[A-Z]` only. -/
def rlGroup1 (cs : List Char) : List Char := cs.takeWhile isUpperAZ

/-- What remains after `([A-Z]{3,}) ?`: drop the month run and one optional
space. -/
def rlAfterMonth (cs : List Char) : List Char :=
  match cs.drop (rlGroup1 cs).length with
  | ' ' :: r => r
  | r => r

/-- `(\d{1,2})`: one or two digits, greedy. -/
def rlGroup2 (cs : List Char) : List Char :=
  ((rlAfterMonth cs).takeWhile isDigit09).take 2

/-- `(?: (\d{4}))?`: optionally a space and exactly four digits. -/
def rlGroup3 (cs : List Char) : Option (List Char) :=
  match (rlAfterMonth cs).drop (rlGroup2 cs).length with
  | ' ' :: r =>
    if ((r.takeWhile isDigit09).take 4).length = 4 then
      some ((r.takeWhile isDigit09).take 4)
    else none
  | _ => none

def dateMatchRL (cs : List Char) : Option (List Char × List Char × Option (List Char)) :=
  if (rlGroup1 cs).length < 3 then none
  else if rlGroup2 cs = [] then none
  else some (rlGroup1 cs, rlGroup2 cs, rlGroup3 cs)

/-- `month_map = {m: i for i, m in enumerate(['JAN',...,'DEC'], 1)}` followed by
`month_map.get(key)` (html_parser.py lines 74–75). -/
def monthMap (key : List Char) : Option Int :=
  if key = "JAN".toList then some 1
  else if key = "FEB".toList then some 2
  else if key = "MAR".toList then some 3
  else if key = "APR".toList then some 4
  else if key = "MAY".toList then some 5
  else if key = "JUN".toList then some 6
  else if key = "JUL".toList then some 7
  else if key = "AUG".toList then some 8
  else if key = "SEP".toList then some 9
  else if key = "OCT".toList then some 10
  else if key = "NOV".toList then some 11
  else if key = "DEC".toList then some 12
  else none

/-- The `obj` dictionary handed to `parse_datetime_rocketlaunchlive_dict`:
`obj.get('date', '')` / `obj.get('time', '')` collapse a missing key and the
empty string, so the two entries are plain strings. -/
structure RLObj where
  date : String
  time : String
  deriving DecidableEq, Repr

/-- `s.split(sep)` with an explicit one-character separator: split at every
occurrence, keeping empty pieces (Python semantics). -/
def splitOnChar (sep : Char) : List Char → List (List Char)
  | [] => [[]]
  | c :: cs =>
    if c = sep then [] :: splitOnChar sep cs
    else
      match splitOnChar sep cs with
      | t :: ts => (c :: t) :: ts
      | [] => [[c]]

/-- `time_str_raw.split(" ")` + extraction of `time_parts[0]` and the AM/PM
token (html_parser.py lines 83–91): `am_pm` is `time_parts[1].upper()` when
that is AM or PM, else the empty string. -/
def splitTimeAmPm (timeStrRaw : String) : String × String :=
  let parts := splitOnChar ' ' timeStrRaw.toList
  let timeVal := (parts.headD []).asString
  let amPm := match parts with
    | _ :: p1 :: _ =>
      if pyUpper p1.asString = "AM" ∨ pyUpper p1.asString = "PM" then
        pyUpper p1.asString
      else ""
    | _ => ""
  (timeVal, amPm)

/-- `parse_datetime_rocketlaunchlive_dict(obj)` (html_parser.py lines 60–94),
returning the millisecond timestamp and ISO string.  `datetime.now().year` is
passed in as `currentYear`.  The body is NOT wrapped in a `try:`; it never
raises only because the regex hands `int(...)` digit-only captures and
`parse_and_convert_datetime` catches everything internally. -/
def parse_datetime_rocketlaunchlive_dict (obj : RLObj) (currentYear : Int) :
    Except PyErr (Option Int × Option String) :=
  if obj.date = "" ∨ obj.time = "" then .ok (none, none)
  else
    match dateMatchRL obj.date.toList with
    | none => .ok (none, none)
    | some (monthStrAbbr, dayS, yearS) =>
      match monthMap ((monthStrAbbr.map Char.toUpper).take 3) with
      | none => .ok (none, none)
      | some monthI =>
        -- `day_i = int(day_s)`: a raised exception would propagate (no try)
        match pyInt dayS with
        | .error e => .error e
        | .ok dayI =>
          match (match yearS with
                 | some ys => pyInt ys
                 | none => .ok currentYear) with
          | .error e => .error e
          | .ok yearI =>
            let (timeVal, amPm) := splitTimeAmPm obj.time
            parse_and_convert_datetime yearI monthI dayI timeVal amPm
              "UTC" "Asia/Shanghai"

/-! ## `_parse_datetime_nextspaceflight` (html_parser.py lines 135–170) -/

/-- `s.replace(p :: ps, "")`: remove every left-to-right, non-overlapping
occurrence of the (nonempty) pattern `p :: ps`. -/
def removeAllSub (p : Char) (ps : List Char) : List Char → List Char
  | [] => []
  | c :: cs =>
    if (p :: ps).isPrefixOf (c :: cs) then removeAllSub p ps (cs.drop ps.length)
    else c :: removeAllSub p ps cs
  termination_by cs => cs.length
  decreasing_by
    · simp only [List.length_cons]
      have := List.length_drop ps.length cs
      omega
    · simp

/-- `s.replace(pat, "")` on strings. -/
def pyRemoveAll (pat s : String) : String :=
  match pat.toList with
  | [] => s
  | p :: ps => (removeAllSub p ps s.toList).asString

/-- `re.sub(r'\s[A-Z]{3,}(?:[+-]\d{1,2})?$', '', s)`: strip a trailing
whitespace-preceded all-uppercase token (length ≥ 3), optionally followed by a
sign and one or two digits, anchored at the end.  Because the match is
end-anchored and each piece is a maximal run of a distinct character class,
there is at most one candidate match: the trailing digit run (if preceded by
`+`/`-`), then the maximal `[A-Z]` run, then one whitespace character. -/
def stripTrailingTzToken (cs : List Char) : List Char :=
  let r := cs.reverse
  -- optional `[+-]\d{1,2}` read from the end
  let afterSign : Option (List Char) :=
    let ds := r.takeWhile isDigit09
    if 1 ≤ ds.length ∧ ds.length ≤ 2 then
      match r.drop ds.length with
      | '+' :: rest => some rest
      | '-' :: rest => some rest
      | _ => none
    else none
  -- the alternative that includes the optional group starts further left, so
  -- the regex engine (leftmost match) prefers it when both alternatives match
  let tryUpper : List Char → Option (List Char) := fun r' =>
    let us := r'.takeWhile isUpperAZ
    if 3 ≤ us.length then
      match r'.drop us.length with
      | w :: rest => if isPySpace w then some rest else none
      | [] => none
    else none
  match afterSign with
  | some r' =>
    match tryUpper r' with
    | some rest => rest.reverse
    | none =>
      -- with the group impossible; without it `[A-Z]` would have to end the
      -- string, impossible here because a digit is last
      cs
  | none =>
    match tryUpper r with
    | some rest => rest.reverse
    | none => cs

/-- C-locale weekday abbreviations, the `%a` table (case-insensitive). -/
def weekdayAbbrOk (tok : List Char) : Bool :=
  let u := tok.map Char.toUpper
  u = "MON".toList || u = "TUE".toList || u = "WED".toList || u = "THU".toList
    || u = "FRI".toList || u = "SAT".toList || u = "SUN".toList

/-- C-locale month abbreviations, the `%b` table (case-insensitive). -/
def monthAbbrVal (tok : List Char) : Option Int :=
  monthMap (tok.map Char.toUpper)

/-- Split a character list into maximal non-whitespace tokens (format
whitespace in `strptime` matches a nonempty whitespace run). -/
def wsTokens : List Char → List (List Char)
  | [] => []
  | c :: cs =>
    if isPySpace c then wsTokens cs
    else (c :: cs.takeWhile (fun x => !isPySpace x))
      :: wsTokens (cs.dropWhile (fun x => !isPySpace x))
  termination_by cs => cs.length
  decreasing_by
    · simp
    · simp only [List.length_cons]
      exact Nat.lt_succ_of_le (List.Sublist.length_le (List.dropWhile_sublist _))

/-- Drop the leading `%a ` weekday token when the format asks for one. -/
def nsfCoreTokens (withWeekday : Bool) (toks : List (List Char)) :
    Option (List (List Char)) :=
  if withWeekday then
    match toks with
    | wd :: rest => if weekdayAbbrOk wd then some rest else none
    | [] => none
  else some toks

/-- `strptime(s, "%a %b %d, %Y %H:%M")` when `withWeekday` is true, else
`strptime(s, "%b %d, %Y %H:%M")` — the two formats tried by
`_parse_datetime_nextspaceflight`.  The `%d` token must carry the format's
literal comma; `%Y` is up to four digits, and the built date is range-checked
by the `datetime` constructor. -/
def strptimeNSF (withWeekday : Bool) (cs : List Char) : Except PyErr NaiveDT :=
  match nsfCoreTokens withWeekday (wsTokens cs) with
  | none => .error .valueError
  | some core =>
    match core with
    | [mon, dayComma, yearTok, hm] =>
      match monthAbbrVal mon with
      | none => .error .valueError
      | some month =>
        let dayDigits := dayComma.takeWhile isDigit09
        if ¬(dayComma = dayDigits ++ [','] ∧ 1 ≤ dayDigits.length ∧ dayDigits.length ≤ 2) then
          .error .valueError
        else
          let day := digitsToInt dayDigits
          if ¬(yearTok ≠ [] ∧ yearTok.all isDigit09 ∧ yearTok.length ≤ 4) then
            .error .valueError
          else
            let year := digitsToInt yearTok
            match hm.splitOn ':' with
            | [hs, ms] =>
              match matchHour24 hs, matchMinute ms with
              | some h, some minute =>
                if 1 ≤ year ∧ 1 ≤ day ∧ day ≤ daysInMonth year month then
                  .ok ⟨year, month, day, h, minute⟩
                else .error .valueError
              | _, _ => .error .valueError
            | _ => .error .valueError
    | _ => .error .valueError

/-- `_parse_datetime_nextspaceflight(datetime_str_gmt8)` (html_parser.py
lines 135–170): clean the trailing zone markers, try the first `strptime`
format, on `ValueError` try the fallback format, and on a second `ValueError`
return `(None, None)`.  On success, read the result as Asia/Shanghai local
time and return the millisecond timestamp and ISO string.  The
`ZoneInfo("Asia/Shanghai")` lookup happens before the `try:`; in the embedding
it is the fixed table entry, so it cannot fail. -/
def parse_datetime_nextspaceflight (datetimeStrGmt8 : String) :
    Except PyErr (Option Int × Option String) :=
  if datetimeStrGmt8 = "" then .ok (none, none)
  else
    let cleaned0 := pyStrip (pyRemoveAll " GMT+8" datetimeStrGmt8)
    let cleaned := pyStrip (stripTrailingTzToken cleaned0.toList).asString
    match zoneInfo "Asia/Shanghai" with
    | .error e => .error e
    | .ok cstTz =>
      match strptimeNSF true cleaned.toList with
      | .error _ =>
        match strptimeNSF false cleaned.toList with
        | .error _ => .ok (none, none)
        | .ok dtNaive =>
          let instant := epochSecondsOf dtNaive cstTz.1
          .ok (some (instant * 1000),
            some (strftimeIso (civilOfEpochSeconds instant cstTz.1) cstTz.2 cstTz.1))
      | .ok dtNaive =>
        let instant := epochSecondsOf dtNaive cstTz.1
        .ok (some (instant * 1000),
          some (strftimeIso (civilOfEpochSeconds instant cstTz.1) cstTz.2 cstTz.1))

/-! ## `_parse_launch_status_from_style` (html_parser.py lines 172–191) -/

/-- The tail of a match of `border-color\s*:\s*([^;]+)` starting exactly at
the head of `cs`: match the literal `border-color` case-insensitively, skip
`\s*`, require `:`, and capture the (nonempty) maximal run of non-`;`
characters after the colon.  Because the code immediately strips the capture,
moving leading whitespace between `\s*` and `([^;]+)` does not change the
stripped value, so the capture is modeled as the full run. -/
def borderColorAt (cs : List Char) : Option (List Char) :=
  let lit := "border-color".toList
  if lit.isPrefixOf (cs.map Char.toLower) then
    let rest := (cs.drop lit.length).dropWhile isPySpace
    match rest with
    | ':' :: rest2 =>
      let captured := rest2.takeWhile (fun c => c ≠ ';')
      if captured = [] then none else some captured
    | _ => none
  else none

/-- `re.search(r"border-color\s*:\s*([^;]+)", style, re.IGNORECASE)`:
the leftmost position where the pattern matches; a position where only the
capture is empty is not a match, and the scan continues to the right. -/
def searchBorderColor : List Char → Option (List Char)
  | [] => none
  | c :: cs =>
    match borderColorAt (c :: cs) with
    | some t => some t
    | none => searchBorderColor cs

/-- `_parse_launch_status_from_style(style_attribute)` (html_parser.py
lines 172–191): `None` or empty input is Unknown; otherwise extract the
`border-color` value, strip and lower-case it, and look it up in the fixed
color table. -/
def parse_launch_status_from_style (styleAttribute : Option String) : String :=
  match styleAttribute with
  | none => "Unknown"
  | some style =>
    if style = "" then "Unknown"  -- `if not style_attribute`
    else
      match searchBorderColor style.toList with
      | none => "Unknown"
      | some captured =>
        let colorValue := pyLower (pyStrip captured.asString)
        if colorValue = "#45cf5d" then "Success"
        else if colorValue = "#da3432" then "Failure"
        else if colorValue = "#ff9900" then "Partial Success"
        else if "rgba(255,255,255,".isPrefixOf colorValue then "Unknown"
        else "Unknown"

/-- Modelled from the spec (§4.2.1 status-from-style resolution): extract the
value of the `border-color` property via the case-insensitive regex
`border-color\s*:\s*([^;]+)`; if absent (no declaration, `None` or empty
input) return Unknown; trim and lower-case the captured value; match it
against the fixed 3-entry table `#45cf5d → Success`, `#da3432 → Failure`,
`#ff9900 → Partial Success`; any value beginning with `rgba(255,255,255,` is
Unknown, and any other value is Unknown. -/
def specStatusFromStyle (styleAttribute : Option String) : String :=
  match styleAttribute with
  | none => "Unknown"
  | some style =>
    match searchBorderColor style.toList with
    | none => "Unknown"
    | some captured =>
      let v := pyLower (pyStrip captured.asString)
      if v = "#45cf5d" then "Success"
      else if v = "#da3432" then "Failure"
      else if v = "#ff9900" then "Partial Success"
      else if "rgba(255,255,255,".isPrefixOf v then "Unknown"
      else "Unknown"

/-! ## The Sync Planner: `prepare_feishu_sync` (cli.py lines 284–423)

A processed-launch JSON object is modeled by `LaunchItem`.  The
`timestamp_ms` entry needs a three-way distinction because
`launch_item.get('timestamp_ms', 0)` returns `0` only when the KEY is missing
and returns `None` when the key is present with JSON `null`. -/

/-- The `timestamp_ms` entry of a processed-launch dictionary. -/
inductive TsField where
  | missing
  | null
  | val (ms : Int)
  deriving DecidableEq, Repr

/-- `item.get('timestamp_ms')`: missing and `null` both read as `None`. -/
def TsField.get : TsField → Option Int
  | .missing => none
  | .null => none
  | .val ms => some ms

/-- `item.get('timestamp_ms', 0)`: the default applies only when the key is
missing; a present `null` still reads as `None`. -/
def TsField.getD0 : TsField → Option Int
  | .missing => some 0
  | .null => none
  | .val ms => some ms

/-- One processed-launch record (a JSON object row of the processed file).
`sourceName` is `Option` because `item.get('source_name')` yields `None` when
absent; `timestamp` is the seconds-value entry written only by the
rocketlaunch.live branch of `fetch_data`. -/
structure LaunchItem where
  mission : String
  vehicle : String := ""
  padLocation : String := "Unknown"
  timestampMs : TsField := .missing
  status : String := "Unknown"
  missionDescription : String := "N/A"
  sourceName : Option String := none
  timestamp : Option Int := none
  provider : String := "Unknown"
  deriving DecidableEq, Repr

/-- Sync eligibility (cli.py lines 316–327): `ts_ms is not None or status in
["Scheduled", "TBD"]`. -/
def syncEligible (item : LaunchItem) : Bool :=
  item.timestampMs.get.isSome || item.status = "Scheduled" || item.status = "TBD"

/-- `current_launch_tuple` (cli.py lines 397–401): the triple
`(item.get('timestamp_ms', 0), item.get('source_name'),
item.get('mission', "").strip().lower())`. -/
def currentLaunchTuple (item : LaunchItem) : Option Int × Option String × String :=
  (item.timestampMs.getD0, item.sourceName, pyLower (pyStrip item.mission))

/-- The sort key relation of `new_launches_to_add_to_feishu.sort(key=lambda x:
x.get('timestamp_ms') if x.get('timestamp_ms') is not None else float('inf'))`
(cli.py line 406): ascending by timestamp, `None` reading as `+inf`. -/
def tsLeB : Option Int → Option Int → Bool
  | _, none => true
  | none, some _ => false
  | some x, some y => x ≤ y

/-- The planner's output ordering on records. -/
def planOrder (a b : LaunchItem) : Prop :=
  tsLeB a.timestampMs.get b.timestampMs.get = true

instance : DecidableRel planOrder := fun a b => by
  unfold planOrder; infer_instance

instance : IsTotal LaunchItem planOrder := ⟨by
  intro a b
  unfold planOrder tsLeB
  rcases a.timestampMs.get with _ | x <;> rcases b.timestampMs.get with _ | y <;>
    simp <;> omega⟩

instance : IsTrans LaunchItem planOrder := ⟨by
  intro a b c
  unfold planOrder tsLeB
  rcases a.timestampMs.get with _ | x <;> rcases b.timestampMs.get with _ | y <;>
    rcases c.timestampMs.get with _ | z <;> simp <;> omega⟩

/-- A record of the remote Bitable as the refactored `list_records` returns
it: a plain dictionary with its `record_id` and a `fields` mapping holding the
launch date (milliseconds or empty), the Source field and the mission name.
`prepare_feishu_sync` never reaches these fields: evaluating
`bitable_records_response.items` on a nonempty plain list raises
`AttributeError` first (see `prepare_feishu_sync` below). -/
structure RemoteRecord where
  recordId : String := ""
  dateMs : Option Int := none
  sourceField : List String := []
  mission : String := ""
  deriving DecidableEq, Repr

/-- Ways `prepare_feishu_sync` aborts with `typer.Exit(1)`. -/
inductive PrepFailure where
  /-- `'source_name' missing in records` (cli.py lines 307–310): the first
  record's `source_name` is `None` or empty. -/
  | missingSource
  /-- `bitable_records_response.items` raised `AttributeError`:
  `list_records` (feishu_bitable.py line 144) returns a plain Python `list`,
  which has no `items` attribute; the access at cli.py line 378 is evaluated
  whenever the response is truthy, i.e. a nonempty list.  The exception is
  caught by the catch-all at line 420 and becomes `typer.Exit(1)`. -/
  | attributeErrorOnItems
  deriving DecidableEq, Repr

/-- The Sync Planner `prepare_feishu_sync` (cli.py lines 284–423), from the
loaded processed-launch list and the result of
`helper.list_records(...)` — `none` models the query-failure return `None`
(feishu_bitable.py line 122), `some rs` the returned record list.  Output:
the list written to the to-sync file, or the abort.

The existing-key set (cli.py lines 377–391) stays empty on every path that
completes: a `None` response and an empty list are both falsy, and a nonempty
list raises `AttributeError` before any key is built.  Each surviving record's
`current_launch_tuple` is still computed and tested against that empty set
(lines 396–403), and the survivors are sorted by timestamp (line 406). -/
def prepare_feishu_sync (processedLaunches : List LaunchItem)
    (bitableRecordsResponse : Option (List RemoteRecord)) :
    Except PrepFailure (List LaunchItem) :=
  match processedLaunches with
  | [] => .ok []  -- `if not processed_launches: ... return` (writes `[]`)
  | first :: _ =>
    match first.sourceName with
    | none => .error .missingSource
    | some sourceValueFromFile =>
      if sourceValueFromFile = "" then .error .missingSource
      else
        let validLaunchesForSync := processedLaunches.filter syncEligible
        if validLaunchesForSync = [] then .ok []
        else
          -- (the oldest-timestamp filter built here only shapes the remote
          -- query, whose outcome is the `bitableRecordsResponse` argument)
          match bitableRecordsResponse with
          | some (_ :: _) => .error .attributeErrorOnItems
          | _ =>
            let existingRecordsTuples : List (Option Int × Option String × String) := []
            let newLaunches := validLaunchesForSync.filter
              (fun item => !(existingRecordsTuples.contains (currentLaunchTuple item)))
            .ok (newLaunches.insertionSort planOrder)

/-! ## The rocketlaunch.live branch of `fetch_data` (cli.py lines 244–256) -/

/-- A raw launch dictionary produced by `parse_launches_rocketlaunchlive`
(html_parser.py lines 97–133): all entries are strings. -/
structure RLRawLaunch where
  date : String
  time : String
  mission : String
  vehicle : String
  pad : String
  location : String
  deriving DecidableEq, Repr

/-- cli.py's own `parse_datetime_rocketlaunchlive_dict` (lines 65–118),
returning a SECONDS timestamp or `None`.  The month lookup failure returns
`None` before the `try:`; `int(day_str)` / `int(year_str)` act on digit-only
regex captures (modeled by their value); everything inside the `try:` that
fails becomes `None`. -/
def cli_parse_datetime_rocketlaunchlive_dict (obj : RLObj) (currentYear : Int) :
    Option Int :=
  if obj.date = "" ∨ obj.time = "" then none
  else
    match dateMatchRL obj.date.toList with
    | none => none
    | some (monthStr, dayStr, yearStr) =>
      match monthMap ((monthStr.map Char.toUpper).take 3) with
      | none => none
      | some month =>
        let day := digitsToInt dayStr
        let year := match yearStr with
          | some ys => digitsToInt ys
          | none => currentYear
        -- try: split the time, strptime, convert UTC → Asia/Shanghai
        let (timeVal, amPm) := splitTimeAmPm obj.time
        match strptimeYmdTime year month day timeVal amPm with
        | .error _ => none
        | .ok dt => some (epochSecondsOf dt 0)  -- int(dt_cst.timestamp())

/-- The record dictionary appended for each rocketlaunch.live launch
(cli.py lines 252–256): note there is NO `timestamp_ms` key — the parsed time
goes to `'timestamp'` in seconds with `timestamp or 0` — and the status is the
literal `"Unknown"`. -/
def buildRLItem (l : RLRawLaunch) (currentYear : Int) : LaunchItem :=
  let timestamp := cli_parse_datetime_rocketlaunchlive_dict ⟨l.date, l.time⟩ currentYear
  let padLocationCombined := pyStripComma (pyStrip (l.pad ++ ", " ++ l.location))
  { mission := l.mission
    vehicle := l.vehicle
    padLocation :=
      if padLocationCombined = "" ∨ padLocationCombined = "," then "Unknown"
      else padLocationCombined
    timestampMs := .missing
    timestamp := some (timestamp.getD 0)  -- `'timestamp': timestamp or 0`
    status := "Unknown"
    missionDescription := "N/A"
    sourceName := some "rocketlaunch.live" }

/-- The rocketlaunch.live branch of `fetch_data` (cli.py lines 244–256):
the processed-launch list written to the output JSON file. -/
def fetch_data_rocketlaunchlive (rawParsedLaunches : List RLRawLaunch)
    (currentYear : Int) : List LaunchItem :=
  rawParsedLaunches.map (fun l => buildRLItem l currentYear)

/-! ## The Sync Executor: `execute_feishu_sync` (cli.py lines 425–587)

The batch is abstracted to its length `n` (record contents only flow into the
remote-create call, whose success is the oracle `createOk`).  `persistPre i`
(resp. `persistPost i`) tells whether the progress-file write with
`next_index = i` before (resp. `next_index = i + 1` after) processing record
`i` succeeds.  The pre-add existence check is left at its default (off). -/

/-- Persisted progress file contents (`data/sync_progress.json`). -/
structure SyncProgress where
  sourceFile : String
  fileHash : String
  nextIndex : Nat
  deriving DecidableEq, Repr

/-- Outcome of an executor run.  `exitError attempted` is the `typer.Exit(1)`
abort after a failed pre-write checkpoint; `done attempted added removed`
reports the processed indices in order, the count of successful creates, and
whether the progress file was deleted at the end. -/
inductive ExecResult where
  | exitError (attempted : List Nat)
  | done (attempted : List Nat) (added : Nat) (removed : Bool)
  deriving DecidableEq, Repr

/-- Indices the run processed (reached the add-or-skip step). -/
def ExecResult.attempted : ExecResult → List Nat
  | .exitError a => a
  | .done a _ _ => a

/-- Whether the run aborted with `typer.Exit(1)`. -/
def ExecResult.isAborted : ExecResult → Bool
  | .exitError _ => true
  | .done _ _ _ => false

/-- The `for i in range(start_index, len(launches_to_sync))` loop (cli.py
lines 481–555), embedded over the materialized index sequence
`List.range' start (n - start)`: for each index, write the pre-write
checkpoint (abort on failure, lines 484–490); attempt the create, counting
successes (lines 536–542 — a `False` result is only logged); write the
post-write checkpoint, where a failure is logged and the loop continues
(lines 544–551).  After the loop the progress file holds the last checkpoint
written, so it is deleted iff its `next_index` reads back as `n`, i.e. iff
the final post-write checkpoint succeeded (lines 564–582). -/
def execLoop (n : Nat) (createOk persistPre persistPost : Nat → Bool) :
    List Nat → List Nat → Nat → ExecResult
  | [], attempted, added =>
    .done attempted added (if 0 < n then persistPost (n - 1) else true)
  | i :: rest, attempted, added =>
    if persistPre i then
      execLoop n createOk persistPre persistPost rest (attempted ++ [i])
        (added + (if createOk i then 1 else 0))
    else .exitError attempted

/-- The resume computation (cli.py lines 452–465): `start_index = 0` unless a
readable progress file exists whose `source_file` and `file_hash` both match,
in which case `start_index = progress.get("next_index", 0)`.  `none` models
both a missing and an unreadable progress file. -/
def computeStartIndex (progress : Option SyncProgress)
    (toSyncFile currentFileHash : String) : Nat :=
  match progress with
  | none => 0
  | some p =>
    if p.sourceFile = toSyncFile ∧ p.fileHash = currentFileHash then p.nextIndex
    else 0

/-- `execute_feishu_sync` (cli.py lines 425–587) over a batch of `n` records:
empty batch → early return (progress file removed when it names this file,
lines 440–450); resume index past the end → early return removing the
progress file (lines 467–470); otherwise run the loop from the resume index. -/
def execute_feishu_sync (n : Nat) (toSyncFile currentFileHash : String)
    (progress : Option SyncProgress) (createOk persistPre persistPost : Nat → Bool) :
    ExecResult :=
  if n = 0 then
    .done [] 0 (match progress with
                | some p => p.sourceFile = toSyncFile
                | none => false)
  else
    let startIndex := computeStartIndex progress toSyncFile currentFileHash
    if n ≤ startIndex then .done [] 0 progress.isSome
    else execLoop n createOk persistPre persistPost
      (List.range' startIndex (n - startIndex)) [] 0

/-! ## Helper lemmas -/

/-- Every character kept by `takeWhile p` satisfies `p`. -/
theorem all_takeWhile (p : Char → Bool) (l : List Char) :
    (l.takeWhile p).all p = true := by
  induction l with
  | nil => rfl
  | cons c cs ih =>
    by_cases h : p c = true <;> simp [List.takeWhile_cons, h, ih]

/-- `take` preserves `all`. -/
theorem all_take (p : Char → Bool) (l : List Char) (n : Nat)
    (h : l.all p = true) : (l.take n).all p = true := by
  rw [List.all_eq_true] at h ⊢
  intro x hx
  exact h x (List.mem_of_mem_take hx)

/-- Shape of the capture groups of the rocketlaunch.live date regex:
the month group is a run of uppercase letters of length at least 3, the day
group a nonempty run of at most two digits, and the year group (when present)
exactly four digits. -/
theorem dateMatchRL_groups {cs g1 g2 g3}
    (h : dateMatchRL cs = some (g1, g2, g3)) :
    g1.all isUpperAZ = true ∧ 3 ≤ g1.length ∧
    g2 ≠ [] ∧ g2.all isDigit09 = true ∧
    ∀ ys, g3 = some ys → ys ≠ [] ∧ ys.all isDigit09 = true ∧ ys.length = 4 := by
  unfold dateMatchRL at h
  by_cases h3 : (rlGroup1 cs).length < 3
  · rw [if_pos h3] at h; exact absurd h (by simp)
  · rw [if_neg h3] at h
    by_cases hg2 : rlGroup2 cs = []
    · rw [if_pos hg2] at h; exact absurd h (by simp)
    · rw [if_neg hg2] at h
      simp only [Option.some.injEq, Prod.mk.injEq] at h
      obtain ⟨rfl, rfl, rfl⟩ := h
      refine ⟨all_takeWhile _ _, by omega, hg2,
        all_take _ _ _ (all_takeWhile _ _), ?_⟩
      intro ys hys
      unfold rlGroup3 at hys
      split at hys
      next r _ =>
        by_cases hlen : ((r.takeWhile isDigit09).take 4).length = 4
        · rw [if_pos hlen] at hys
          obtain rfl := Option.some.inj hys
          exact ⟨by intro hemp; rw [hemp] at hlen; simp at hlen,
            all_take _ _ _ (all_takeWhile _ _), hlen⟩
        · rw [if_neg hlen] at hys; exact absurd hys (by simp)
      next => exact absurd hys (by simp)

/-- `int(...)` succeeds on a nonempty all-digit capture. -/
theorem pyInt_ok {cs : List Char} (h1 : cs ≠ []) (h2 : cs.all isDigit09 = true) :
    pyInt cs = .ok (digitsToInt cs) := by
  unfold pyInt
  rw [if_pos ⟨h1, h2⟩]

/-- `parse_and_convert_datetime` always returns: its whole body sits inside
the `try:` whose handlers return `(None, None)`. -/
theorem parse_and_convert_datetime_ok (y mo d : Int) (ts ap itz ttz : String) :
    ∃ r, parse_and_convert_datetime y mo d ts ap itz ttz = .ok r := by
  cases hb : parseAndConvertBody y mo d ts ap itz ttz with
  | ok a =>
    exact ⟨a, by unfold parse_and_convert_datetime pyTry; rw [hb]⟩
  | error e =>
    exact ⟨(none, none), by unfold parse_and_convert_datetime pyTry; rw [hb]⟩

/-- A raised exception inside `parse_and_convert_datetime` becomes the
`(None, None)` result. -/
theorem parse_and_convert_datetime_error_to_none (y mo d : Int)
    (ts ap itz ttz : String) (e : PyErr)
    (h : parseAndConvertBody y mo d ts ap itz ttz = .error e) :
    parse_and_convert_datetime y mo d ts ap itz ttz = .ok (none, none) := by
  unfold parse_and_convert_datetime pyTry
  rw [h]

/-- `parse_datetime_rocketlaunchlive_dict` always returns: the regex hands
`int(...)` digit-only captures and every other failure path returns
`(None, None)`. -/
theorem parse_datetime_rocketlaunchlive_dict_ok (obj : RLObj) (cy : Int) :
    ∃ r, parse_datetime_rocketlaunchlive_dict obj cy = .ok r := by
  unfold parse_datetime_rocketlaunchlive_dict
  by_cases hde : obj.date = "" ∨ obj.time = ""
  · exact ⟨(none, none), by rw [if_pos hde]⟩
  · rw [if_neg hde]
    cases hdm : dateMatchRL obj.date.toList with
    | none => exact ⟨(none, none), rfl⟩
    | some groups =>
      obtain ⟨g1, g2, g3⟩ := groups
      obtain ⟨-, -, hg2ne, hg2dig, hg3⟩ := dateMatchRL_groups hdm
      dsimp only
      cases hmm : monthMap ((g1.map Char.toUpper).take 3) with
      | none => exact ⟨(none, none), rfl⟩
      | some monthI =>
        rw [pyInt_ok hg2ne hg2dig]
        cases hg3v : g3 with
        | none =>
          obtain ⟨r, hr⟩ := parse_and_convert_datetime_ok cy monthI
            (digitsToInt g2) (splitTimeAmPm obj.time).1 (splitTimeAmPm obj.time).2
            "UTC" "Asia/Shanghai"
          exact ⟨r, hr⟩
        | some ys =>
          obtain ⟨hyne, hydig, -⟩ := hg3 ys hg3v
          dsimp only
          rw [pyInt_ok hyne hydig]
          obtain ⟨r, hr⟩ := parse_and_convert_datetime_ok (digitsToInt ys) monthI
            (digitsToInt g2) (splitTimeAmPm obj.time).1 (splitTimeAmPm obj.time).2
            "UTC" "Asia/Shanghai"
          exact ⟨r, hr⟩

/-- `_parse_datetime_nextspaceflight` always returns: both `strptime`
attempts are guarded, and the zone lookup is the fixed table entry. -/
theorem parse_datetime_nextspaceflight_ok (s : String) :
    ∃ r, parse_datetime_nextspaceflight s = .ok r := by
  unfold parse_datetime_nextspaceflight
  by_cases hs : s = ""
  · exact ⟨(none, none), by rw [if_pos hs]⟩
  · rw [if_neg hs]
    dsimp only
    rw [show zoneInfo "Asia/Shanghai" = Except.ok (8 * 3600, "CST") from rfl]
    cases h1 : strptimeNSF true (pyStrip (stripTrailingTzToken (pyStrip (pyRemoveAll " GMT+8" s)).toList).asString).toList with
    | ok dt => exact ⟨_, rfl⟩
    | error e1 =>
      cases h2 : strptimeNSF false (pyStrip (stripTrailingTzToken (pyStrip (pyRemoveAll " GMT+8" s)).toList).asString).toList with
      | ok dt => exact ⟨_, rfl⟩
      | error e2 => exact ⟨(none, none), rfl⟩

/-! ## Claim theorems -/

/-- C1: for every CSS-style attribute string (or `None`) given to
status-from-style resolution the result is computed exactly as the spec
describes — extract the `border-color` value case-insensitively tolerating
whitespace around the colon and extra declarations around it, default to
Unknown when absent (or for `None`/empty input), and map the trimmed
lower-cased value through the fixed table (`#45cf5d → Success`,
`#da3432 → Failure`, `#ff9900 → Partial Success`,
`rgba(255,255,255,`-prefixed and everything else → Unknown); in particular
`"border-color: #DA3432; border-style: solid;"` resolves to `"Failure"`. -/
theorem c1_status_from_style_resolution :
    (∀ styleAttribute, parse_launch_status_from_style styleAttribute
        = specStatusFromStyle styleAttribute) ∧
    parse_launch_status_from_style
      (some "border-color: #DA3432; border-style: solid;") = "Failure" := by
  constructor
  · intro st
    match st with
    | none => rfl
    | some s =>
      by_cases h : s = ""
      · subst h; rfl
      · unfold parse_launch_status_from_style specStatusFromStyle
        dsimp only
        rw [if_neg h]
  · rfl

/-- C6: the Datetime Normalizer never raises to its caller — each of
`parse_and_convert_datetime`, `parse_datetime_rocketlaunchlive_dict` and
`_parse_datetime_nextspaceflight` returns on every input — and any exception
raised inside `parse_and_convert_datetime`'s body (invalid day-of-month,
`strptime` failure, zone-lookup failure) is caught and becomes `(None, None)`. -/
theorem c6_normalizer_never_raises :
    (∀ (year month day : Int) (timeStr amPm inputTz targetTz : String),
        ∃ r, parse_and_convert_datetime year month day timeStr amPm inputTz targetTz
          = .ok r) ∧
    (∀ (obj : RLObj) (currentYear : Int),
        ∃ r, parse_datetime_rocketlaunchlive_dict obj currentYear = .ok r) ∧
    (∀ s, ∃ r, parse_datetime_nextspaceflight s = .ok r) ∧
    (∀ (year month day : Int) (timeStr amPm inputTz targetTz : String) (e : PyErr),
        parseAndConvertBody year month day timeStr amPm inputTz targetTz = .error e →
        parse_and_convert_datetime year month day timeStr amPm inputTz targetTz
          = .ok (none, none)) :=
  ⟨parse_and_convert_datetime_ok, parse_datetime_rocketlaunchlive_dict_ok,
   parse_datetime_nextspaceflight_ok, parse_and_convert_datetime_error_to_none⟩

/-- Witness for C6: the invalid calendar date February 30 makes the `try:`
body raise `ValueError`, and the function returns `(None, None)`. -/
theorem c6_normalizer_never_raises_witness :
    parseAndConvertBody 2023 2 30 "02:47" "AM" "UTC" "Asia/Shanghai"
      = .error .valueError ∧
    parse_and_convert_datetime 2023 2 30 "02:47" "AM" "UTC" "Asia/Shanghai"
      = .ok (none, none) :=
  ⟨rfl, c6_normalizer_never_raises.2.2.2 2023 2 30 "02:47" "AM" "UTC" "Asia/Shanghai"
    .valueError rfl⟩

/-- C9: the input `("SEP 18 2023", "02:47 AM")` with input zone UTC and target
zone Asia/Shanghai yields the concrete millisecond timestamp 1695005220000:
the naive time is read as 2023-09-18 02:47 UTC (1695005220 s), and that
instant shown at UTC+8 is 2023-09-18 10:47 — independently of the ambient
current year, since the date text carries its own year. -/
theorem c9_sep18_scenario (currentYear : Int) :
    parse_datetime_rocketlaunchlive_dict ⟨"SEP 18 2023", "02:47 AM"⟩ currentYear
      = .ok (some 1695005220000, some "2023-09-18 10:47:00 CST+0800") ∧
    1695005220000 = 1000 * epochSecondsOf ⟨2023, 9, 18, 2, 47⟩ 0 ∧
    civilOfEpochSeconds 1695005220 (8 * 3600) = ⟨2023, 9, 18, 10, 47⟩ :=
  ⟨rfl, by decide, by decide⟩

/-- Counterexample to C7: the claim says a lower/mixed-case month such as
`'Sep 18 2023'` parses the same as its upper-case form; in fact the date
regex `[A-Z]{3,}` is case-sensitive, so `'Sep 18 2023'` fails with
`(None, None)` while `'SEP 18 2023'` parses to a concrete timestamp. -/
theorem c7_counterexample :
    parse_datetime_rocketlaunchlive_dict ⟨"Sep 18 2023", "02:47 AM"⟩ 2024
      = .ok (none, none) ∧
    parse_datetime_rocketlaunchlive_dict ⟨"SEP 18 2023", "02:47 AM"⟩ 2024
      = .ok (some 1695005220000, some "2023-09-18 10:47:00 CST+0800") :=
  ⟨rfl, rfl⟩

/-- C7 (amended): the month token must be upper-case — the regex `[A-Z]{3,}`
accepts only runs of at least three upper-case letters, so a failed date
match (including any lower/mixed-case month) yields `(None, None)`; a matched
month token is all upper-case and its first three characters are looked up in
the fixed 12-entry table, an unrecognized token again yielding
`(None, None)`. -/
theorem c7_month_matching_amended :
    ∀ (obj : RLObj) (currentYear : Int),
      (dateMatchRL obj.date.toList = none →
        parse_datetime_rocketlaunchlive_dict obj currentYear = .ok (none, none)) ∧
      (∀ g1 g2 g3, dateMatchRL obj.date.toList = some (g1, g2, g3) →
        g1.all isUpperAZ = true ∧ 3 ≤ g1.length ∧
        (monthMap ((g1.map Char.toUpper).take 3) = none →
          parse_datetime_rocketlaunchlive_dict obj currentYear = .ok (none, none))) := by
  intro obj cy
  constructor
  · intro h
    unfold parse_datetime_rocketlaunchlive_dict
    by_cases hde : obj.date = "" ∨ obj.time = ""
    · rw [if_pos hde]
    · rw [if_neg hde, h]
  · intro g1 g2 g3 hm
    obtain ⟨hup, hlen, -, -, -⟩ := dateMatchRL_groups hm
    refine ⟨hup, hlen, ?_⟩
    intro hmm
    unfold parse_datetime_rocketlaunchlive_dict
    by_cases hde : obj.date = "" ∨ obj.time = ""
    · rw [if_pos hde]
    · rw [if_neg hde, hm]
      dsimp only
      rw [hmm]

/-- Witness for C7 (amended): the unrecognized upper-case month token `XYZ`
matches the regex but misses the table, and the parse returns `(None, None)`. -/
theorem c7_month_matching_amended_witness :
    dateMatchRL "XYZ 18 2023".toList
      = some ("XYZ".toList, "18".toList, some "2023".toList) ∧
    monthMap (("XYZ".toList.map Char.toUpper).take 3) = none ∧
    parse_datetime_rocketlaunchlive_dict ⟨"XYZ 18 2023", "02:47 AM"⟩ 2024
      = .ok (none, none) :=
  ⟨rfl, rfl,
    ((c7_month_matching_amended ⟨"XYZ 18 2023", "02:47 AM"⟩ 2024).2
      "XYZ".toList "18".toList (some "2023".toList) rfl).2.2 rfl⟩

/-- When every pre-write checkpoint in the index list succeeds, the loop
processes the whole list in order and finishes. -/
theorem execLoop_all_pre_ok (n : Nat) (co ppre ppost : Nat → Bool)
    (l : List Nat) (acc : List Nat) (add : Nat)
    (h : ∀ j ∈ l, ppre j = true) :
    execLoop n co ppre ppost l acc add
      = .done (acc ++ l) (add + l.countP co)
          (if 0 < n then ppost (n - 1) else true) := by
  induction l generalizing acc add with
  | nil => simp [execLoop]
  | cons i rest ih =>
    have hi : ppre i = true := h i (by simp)
    rw [execLoop, if_pos hi, ih _ _ (fun j hj => h j (by simp [hj]))]
    simp only [List.append_assoc, List.singleton_append, List.countP_cons]
    congr 1
    by_cases hci : co i = true <;> simp [hci] <;> omega

/-- A failed pre-write checkpoint at the first failing index aborts the run,
having processed exactly the indices before it. -/
theorem execLoop_pre_fails (n : Nat) (co ppre ppost : Nat → Bool)
    (l1 : List Nat) (j : Nat) (l2 : List Nat) (acc : List Nat) (add : Nat)
    (h1 : ∀ i ∈ l1, ppre i = true) (hj : ppre j = false) :
    execLoop n co ppre ppost (l1 ++ j :: l2) acc add
      = .exitError (acc ++ l1) := by
  induction l1 generalizing acc add with
  | nil =>
    rw [List.nil_append, execLoop, if_neg (by simp [hj]), List.append_nil]
  | cons i rest ih =>
    have hi : ppre i = true := h1 i (by simp)
    rw [List.cons_append, execLoop, if_pos hi,
      ih (acc ++ [i]) (add + (if co i then 1 else 0)) (fun x hx => h1 x (by simp [hx]))]
    simp

/-- The loop's control flow (processed indices and abort flag) does not
depend on the create results or on the post-write checkpoint outcomes. -/
theorem execLoop_control_indep (n : Nat) (co co2 ppre ppost ppost2 : Nat → Bool)
    (l : List Nat) (acc : List Nat) (add add2 : Nat) :
    (execLoop n co ppre ppost l acc add).attempted
      = (execLoop n co2 ppre ppost2 l acc add2).attempted ∧
    (execLoop n co ppre ppost l acc add).isAborted
      = (execLoop n co2 ppre ppost2 l acc add2).isAborted := by
  induction l generalizing acc add add2 with
  | nil => simp [execLoop, ExecResult.attempted, ExecResult.isAborted]
  | cons i rest ih =>
    by_cases hi : ppre i = true
    · rw [execLoop, if_pos hi, execLoop, if_pos hi]
      exact ih _ _ _
    · rw [execLoop, if_neg hi, execLoop, if_neg hi]
      exact ⟨rfl, rfl⟩

/-- C5: with working checkpoint persistence, the executor resumes exactly:
a progress record matching both the source-file identifier and the content
hash with `next_index = k < N` makes it attempt exactly indices `[k, N)` in
order, and a mismatched source-file identifier or hash makes it attempt
exactly `[0, N)`; neither run aborts. -/
theorem c5_resume_correctness :
    ∀ (n : Nat) (file hash : String) (co ppre ppost : Nat → Bool),
      (∀ i, ppre i = true) →
      (∀ k, k < n →
        (execute_feishu_sync n file hash (some ⟨file, hash, k⟩) co ppre ppost).attempted
          = List.range' k (n - k) ∧
        (execute_feishu_sync n file hash (some ⟨file, hash, k⟩) co ppre ppost).isAborted
          = false) ∧
      (∀ p : SyncProgress, ¬(p.sourceFile = file ∧ p.fileHash = hash) →
        (execute_feishu_sync n file hash (some p) co ppre ppost).attempted
          = List.range' 0 n ∧
        (execute_feishu_sync n file hash (some p) co ppre ppost).isAborted
          = false) := by
  intro n file hash co ppre ppost hpre
  have hstart1 : ∀ k, computeStartIndex (some ⟨file, hash, k⟩) file hash = k := by
    intro k
    unfold computeStartIndex
    dsimp only
    rw [if_pos ⟨rfl, rfl⟩]
  constructor
  · intro k hk
    unfold execute_feishu_sync
    rw [if_neg (by omega : ¬n = 0)]
    dsimp only
    rw [hstart1 k, if_neg (by omega : ¬n ≤ k),
      execLoop_all_pre_ok n co ppre ppost _ [] 0 (fun j _ => hpre j)]
    exact ⟨by simp [ExecResult.attempted], rfl⟩
  · intro p hp
    have hstart : computeStartIndex (some p) file hash = 0 := by
      unfold computeStartIndex
      dsimp only
      rw [if_neg hp]
    unfold execute_feishu_sync
    by_cases hn : n = 0
    · rw [if_pos hn]
      subst hn
      exact ⟨by simp [ExecResult.attempted, List.range'], rfl⟩
    · rw [if_neg hn]
      dsimp only
      rw [hstart, if_neg (by omega : ¬n ≤ 0),
        execLoop_all_pre_ok n co ppre ppost _ [] 0 (fun j _ => hpre j)]
      exact ⟨by simp [ExecResult.attempted], rfl⟩

/-- Witness for C5: a batch of 3 with matching progress at `next_index = 1`
attempts exactly indices 1 and 2. -/
theorem c5_resume_correctness_witness :
    (execute_feishu_sync 3 "to_sync.json" "hash0"
        (some ⟨"to_sync.json", "hash0", 1⟩)
        (fun _ => true) (fun _ => true) (fun _ => true)).attempted
      = List.range' 1 (3 - 1) ∧
    (execute_feishu_sync 3 "to_sync.json" "hash0"
        (some ⟨"to_sync.json", "hash0", 1⟩)
        (fun _ => true) (fun _ => true) (fun _ => true)).isAborted = false :=
  (c5_resume_correctness 3 "to_sync.json" "hash0"
    (fun _ => true) (fun _ => true) (fun _ => true) (fun _ => rfl)).1 1 (by omega)

/-- Counterexample to C4: a run in which every post-write checkpoint persist
fails still finishes (it is not aborted) — it merely leaves the progress file
behind — refuting the claim that a post-write checkpoint failure is fatal. -/
theorem c4_counterexample :
    execute_feishu_sync 1 "to_sync.json" "hash0" none
      (fun _ => true) (fun _ => true) (fun _ => false)
      = .done [0] 1 false ∧
    (execute_feishu_sync 1 "to_sync.json" "hash0" none
      (fun _ => true) (fun _ => true) (fun _ => false)).isAborted = false :=
  ⟨rfl, rfl⟩

/-- C4 (amended): an individual record's create failure never aborts the
batch and never changes which indices are processed (control flow is
independent of the create results); a failure to persist the PRE-write
checkpoint at `next_index = i` is fatal — the run aborts with `Exit(1)`
having processed exactly the indices before `i` — but a failure to persist
the POST-write checkpoint at `next_index = i + 1` is only logged: it never
aborts the run and never changes which indices are processed (it only
prevents the final deletion of the progress file). -/
theorem c4_executor_failure_semantics :
    ∀ (n : Nat) (file hash : String) (prog : Option SyncProgress)
      (co co2 ppre ppost ppost2 : Nat → Bool),
      ((execute_feishu_sync n file hash prog co ppre ppost).attempted
         = (execute_feishu_sync n file hash prog co2 ppre ppost2).attempted ∧
       (execute_feishu_sync n file hash prog co ppre ppost).isAborted
         = (execute_feishu_sync n file hash prog co2 ppre ppost2).isAborted) ∧
      (∀ j, computeStartIndex prog file hash ≤ j → j < n →
        (∀ i, computeStartIndex prog file hash ≤ i → i < j → ppre i = true) →
        ppre j = false →
        execute_feishu_sync n file hash prog co ppre ppost
          = .exitError (List.range' (computeStartIndex prog file hash)
              (j - computeStartIndex prog file hash))) := by
  intro n file hash prog co co2 ppre ppost ppost2
  constructor
  · unfold execute_feishu_sync
    by_cases hn : n = 0
    · rw [if_pos hn, if_pos hn]
      exact ⟨rfl, rfl⟩
    · rw [if_neg hn, if_neg hn]
      dsimp only
      by_cases hs : n ≤ computeStartIndex prog file hash
      · rw [if_pos hs, if_pos hs]
        exact ⟨rfl, rfl⟩
      · rw [if_neg hs, if_neg hs]
        exact execLoop_control_indep n co co2 ppre ppost ppost2 _ [] 0 0
  · intro j hsj hjn hpre hj
    unfold execute_feishu_sync
    rw [if_neg (by omega : ¬n = 0)]
    dsimp only
    rw [if_neg (by omega : ¬n ≤ computeStartIndex prog file hash)]
    set s := computeStartIndex prog file hash with hs
    have hsplit : List.range' s (n - s)
        = List.range' s (j - s) ++ j :: List.range' (j + 1) (n - j - 1) := by
      have h1 : List.range' s (j - s) ++ List.range' (s + (j - s)) (n - j)
          = List.range' s ((n - j) + (j - s)) := List.range'_append_1 s (j - s) (n - j)
      have h2 : s + (j - s) = j := by omega
      have h3 : (n - j) + (j - s) = n - s := by omega
      have h4 : n - j = (n - j - 1) + 1 := by omega
      rw [h2, h3] at h1
      rw [← h1, h4, List.range'_succ, Nat.add_sub_cancel]
    rw [hsplit,
      execLoop_pre_fails n co ppre ppost (List.range' s (j - s)) j _ [] 0
        (fun i hi => by
          obtain ⟨t, ht, rfl⟩ := List.mem_range'.mp hi
          exact hpre (s + 1 * t) (by omega) (by omega)) hj]
    rw [List.nil_append]

/-- Witness for C4 (amended): on a 2-record batch whose pre-write checkpoint
persist fails at index 1, the executor aborts having processed only index 0. -/
theorem c4_executor_failure_semantics_witness :
    execute_feishu_sync 2 "to_sync.json" "hash0" none
      (fun _ => true) (fun i => i == 0) (fun _ => true)
      = .exitError (List.range' 0 1) :=
  (c4_executor_failure_semantics 2 "to_sync.json" "hash0" none
      (fun _ => true) (fun _ => true) (fun i => i == 0)
      (fun _ => true) (fun _ => true)).2 1 (by decide) (by omega)
    (fun i _ h1 => by
      have hi0 : i = 0 := by omega
      subst hi0
      rfl)
    rfl

/-- A sync-eligible processed record used in concrete runs. -/
def sampleEligibleLaunch : LaunchItem :=
  { mission := "Starlink Group 6-21", timestampMs := .val 1695005220000,
    status := "Success", sourceName := some "nextspaceflight.com" }

/-- A record whose `timestamp_ms` is present but JSON `null`, eligible through
its `"Scheduled"` status. -/
def sampleNullTsScheduled : LaunchItem :=
  { mission := "Artemis II", timestampMs := .null, status := "Scheduled",
    sourceName := some "nextspaceflight.com" }

/-- One remote record, as returned by the refactored `list_records`. -/
def sampleRemoteRecord : RemoteRecord :=
  { recordId := "recx", dateMs := some 0,
    sourceField := ["nextspaceflight.com"], mission := "starlink group 6-21" }

/-- Counterexample to C3: on a failed remote query (`list_records` returns
`None`) the planner does NOT propagate the failure — it produces the same
write-set as an empty query result, scheduling the eligible record computed
against an empty existing-record set. -/
theorem c3_counterexample :
    prepare_feishu_sync [sampleEligibleLaunch] none = .ok [sampleEligibleLaunch] ∧
    prepare_feishu_sync [sampleEligibleLaunch] none
      = prepare_feishu_sync [sampleEligibleLaunch] (some []) :=
  ⟨rfl, rfl⟩

/-- C3 (amended): when the remote query fails, `list_records` returns `None`
and the Sync Planner proceeds exactly as if the query had returned an empty
record list, computing the write-set from an empty existing-record set
(only the log message differs; the failure is not surfaced to the caller —
though an exception raised inside `list_records` itself would still
propagate). -/
theorem c3_failed_query_treated_as_empty (input : List LaunchItem) :
    prepare_feishu_sync input none = prepare_feishu_sync input (some []) := by
  cases input with
  | nil => rfl
  | cons first rest =>
    -- after reducing the two constructor-headed query matches (`None` and
    -- `[]` are both falsy) the two sides are literally the same computation
    unfold prepare_feishu_sync
    dsimp only

/-- Evaluation of the code at C2's failing input: as soon as the remote query
returns at least one record, `prepare_feishu_sync` aborts with the
`AttributeError` raised by `bitable_records_response.items` (a plain list has
no `items` attribute) instead of building the existing-key set and filtering;
and the business key the planner computes for a record whose `timestamp_ms`
is present-but-`null` keeps `None` instead of normalizing it to `0`
(`launch_item.get('timestamp_ms', 0)` only defaults a MISSING key), even
though such a record is sync-eligible through its Scheduled status and the
remote side normalizes an empty date to `0`. -/
theorem c2_code_bug_eval :
    prepare_feishu_sync [sampleEligibleLaunch] (some [sampleRemoteRecord])
      = .error .attributeErrorOnItems ∧
    currentLaunchTuple sampleNullTsScheduled
      = (none, some "nextspaceflight.com", "artemis ii") ∧
    syncEligible sampleNullTsScheduled = true :=
  ⟨rfl, rfl, rfl⟩

/-- C8: whenever the Sync Planner completes, its output write-set is sorted
ascending by `timestamp_ms` with records lacking a timestamp (`None`) ordered
after all records that have one. -/
theorem c8_write_set_sorted :
    ∀ (input : List LaunchItem) (q : Option (List RemoteRecord))
      (ws : List LaunchItem),
      prepare_feishu_sync input q = .ok ws →
      List.Sorted planOrder ws ∧
      List.Pairwise
        (fun a b => a.timestampMs.get = none → b.timestampMs.get = none) ws := by
  intro input q ws h
  have hsorted : List.Sorted planOrder ws := by
    unfold prepare_feishu_sync at h
    split at h
    · injection h with h2; subst h2; exact List.sorted_nil
    · split at h
      · exact absurd h (by simp)
      · split at h
        · exact absurd h (by simp)
        · dsimp only at h
          split at h
          · injection h with h2; subst h2; exact List.sorted_nil
          · repeat' split at h
            all_goals
              first
              | (injection h with h2; subst h2;
                 exact List.sorted_insertionSort planOrder _)
              | injection h
  refine ⟨hsorted, List.Pairwise.imp ?_ hsorted⟩
  intro a b hab hnone
  unfold planOrder at hab
  rw [hnone] at hab
  cases hb : b.timestampMs.get with
  | none => rfl
  | some y => rw [hb] at hab; exact absurd hab (by simp [tsLeB])

/-- Witness for C8: a completed planner run whose output is the singleton
write-set, which is sorted. -/
theorem c8_write_set_sorted_witness :
    List.Sorted planOrder [sampleEligibleLaunch] ∧
    List.Pairwise
      (fun a b => a.timestampMs.get = none → b.timestampMs.get = none)
      [sampleEligibleLaunch] :=
  c8_write_set_sorted [sampleEligibleLaunch] none [sampleEligibleLaunch] rfl

/-- C10: every record built by the rocketlaunch.live branch of `fetch_data`
has no `timestamp_ms` key (its parsed time sits in seconds under
`'timestamp'`, a failed parse coerced to `0`) and status fixed to
`"Unknown"`; hence none is sync-eligible and the Sync Planner's write-set for
such a file is empty whatever the remote query returns. -/
theorem c10_rocketlaunchlive_never_synced :
    ∀ (raws : List RLRawLaunch) (currentYear : Int)
      (q : Option (List RemoteRecord)),
      prepare_feishu_sync (fetch_data_rocketlaunchlive raws currentYear) q
        = .ok [] ∧
      ∀ item ∈ fetch_data_rocketlaunchlive raws currentYear,
        item.timestampMs = .missing ∧ item.status = "Unknown" ∧
        syncEligible item = false ∧
        ∃ l ∈ raws, item = buildRLItem l currentYear ∧
          item.timestamp = some ((cli_parse_datetime_rocketlaunchlive_dict
            ⟨l.date, l.time⟩ currentYear).getD 0) := by
  intro raws cy q
  have hmem : ∀ item ∈ fetch_data_rocketlaunchlive raws cy,
      item.timestampMs = .missing ∧ item.status = "Unknown" ∧
      syncEligible item = false ∧
      ∃ l ∈ raws, item = buildRLItem l cy ∧
        item.timestamp = some ((cli_parse_datetime_rocketlaunchlive_dict
          ⟨l.date, l.time⟩ cy).getD 0) := by
    intro item him
    obtain ⟨l, hl, rfl⟩ := List.mem_map.mp him
    exact ⟨rfl, rfl, rfl, l, hl, rfl, rfl⟩
  refine ⟨?_, hmem⟩
  cases hfd : fetch_data_rocketlaunchlive raws cy with
  | nil => rfl
  | cons first rest =>
    have hfirst : first.sourceName = some "rocketlaunch.live" := by
      have hin : first ∈ fetch_data_rocketlaunchlive raws cy := by
        rw [hfd]; exact List.mem_cons_self _ _
      obtain ⟨l, -, rfl⟩ := List.mem_map.mp hin
      rfl
    have hfilter : List.filter syncEligible (first :: rest) = [] := by
      rw [List.filter_eq_nil_iff]
      intro a ha
      have hin : a ∈ fetch_data_rocketlaunchlive raws cy := by rw [hfd]; exact ha
      obtain ⟨l, -, rfl⟩ := List.mem_map.mp hin
      rw [show syncEligible (buildRLItem l cy) = false from rfl]
      simp
    unfold prepare_feishu_sync
    dsimp only
    rw [hfirst]
    dsimp only
    rw [if_neg (by decide : ¬("rocketlaunch.live" = "")), if_pos hfilter]

/-- Witness for C10: the single scraped rocketlaunch.live entry yields a
record that is not sync-eligible, and the planner's write-set is empty. -/
theorem c10_rocketlaunchlive_never_synced_witness :
    prepare_feishu_sync
        (fetch_data_rocketlaunchlive
          [⟨"SEP 18 2023", "02:47 AM", "Starlink", "Falcon 9", "SLC-40", "Florida"⟩]
          2024) none
      = .ok [] ∧
    syncEligible (buildRLItem
        ⟨"SEP 18 2023", "02:47 AM", "Starlink", "Falcon 9", "SLC-40", "Florida"⟩
        2024) = false := by
  have h := c10_rocketlaunchlive_never_synced
    [⟨"SEP 18 2023", "02:47 AM", "Starlink", "Falcon 9", "SLC-40", "Florida"⟩]
    2024 none
  exact ⟨h.1,
    (h.2 (buildRLItem
        ⟨"SEP 18 2023", "02:47 AM", "Starlink", "Falcon 9", "SLC-40", "Florida"⟩ 2024)
      (List.mem_singleton_self _)).2.2.1⟩
